import Mathlib

/-!
Shallow embedding of the Careerspark analysis pipeline.

Sources embedded here:
- src/types.ts                 (entity shapes)
- src/unnamed/part_001         (supabaseService: getResumeData, updateResumeWithAnalysis)
- src/services/apiService.ts   (findMatchingJobs: grounded-search variant and
                                direct JSearch variant)
- src/lib/supabase.ts          (findMatchingJobs: second grounded-search variant)
- src/pages/Upload.tsx         (onDrop size gate)

External collaborators (the Supabase client, the generative-model endpoint,
JSON.parse, fetch, Math.random) are modelled as explicit environments whose
outcomes are parameters; the control flow around them is translated from the
source line by line.  JavaScript numbers are modelled as rationals, strings as
Lean strings or lists of characters where character-level processing matters.
-/

namespace Careerspark

/-! ## Data model (src/types.ts) -/

inductive SkillCategory
  | technical
  | soft
  | domain
deriving DecidableEq

inductive ExperienceLevel
  | entryLevel
  | junior
  | midLevel
  | senior
deriving DecidableEq

inductive AnalysisStatus
  | processing
  | completed
  | failed
deriving DecidableEq

/-- A loosely typed JavaScript value as delivered by JSON deserialization.
The source guards such values with typeof-number checks before persisting. -/
inductive JSValue
  | num (q : ℚ)
  | str (s : String)
  | undef
  | jbool (b : Bool)
deriving DecidableEq

def JSValue.isNumber : JSValue → Bool
  | .num _ => true
  | _ => false

structure Skill where
  id : Option String
  resume_id : Option String
  name : String
  category : SkillCategory
  confidence : ℚ
  experience_years : Option ℚ
deriving DecidableEq

structure Job where
  id : Option String
  resume_id : Option String
  title : String
  company : String
  location : String
  match_percentage : ℚ
  apply_url : String
  description : String
  salary_range : String
  experience_required : String
  job_type : String
deriving DecidableEq

structure Feedback where
  id : Option String
  resume_id : Option String
  suggestion : String
deriving DecidableEq

/-- One row of the resumes table (header fields of `Resume` in src/types.ts). -/
structure ResumeRow where
  id : String
  user_id : String
  filename : String
  file_url : String
  extracted_text : Option String
  score : ℚ
  experience_level : ExperienceLevel
  total_experience : ℚ
  status : AnalysisStatus
  created_at : String
deriving DecidableEq

/-- The composite `Resume` shape of src/types.ts: header fields plus the three
child collections, as returned by `getResumeData`. -/
structure Resume where
  id : String
  user_id : String
  filename : String
  file_url : String
  extracted_text : Option String
  skills : List Skill
  score : ℚ
  feedback : List Feedback
  matched_jobs : List Job
  experience_level : ExperienceLevel
  total_experience : ℚ
  status : AnalysisStatus
  created_at : String
deriving DecidableEq

/-! ## Persistence coordinator (src/unnamed/part_001) -/

/-- A skill as it arrives from the AI analysis, before sanitization: its
`confidence` may be missing or of the wrong type. -/
structure RawSkill where
  name : String
  category : SkillCategory
  confidence : JSValue
  experience_years : Option ℚ
deriving DecidableEq

/-- A matched job as it arrives from the job-search stage, before
sanitization: its `match_percentage` may be missing or of the wrong type. -/
structure RawJob where
  title : String
  company : String
  location : String
  match_percentage : JSValue
  apply_url : String
  description : String
  salary_range : String
  experience_required : String
  job_type : String
deriving DecidableEq

/-- The `AnalysisData` argument of `updateResumeWithAnalysis`.  The sequences
are optional because the source guards them with `(xs || [])`, and
`experience_level` is optional because the source defaults it with
`experience_level || 'entry-level'`. -/
structure AnalysisData where
  score : JSValue
  feedback : Option (List String)
  skills : Option (List RawSkill)
  experience_level : Option ExperienceLevel
  total_experience : JSValue
  matched_jobs : Option (List RawJob)
  extracted_text : String
deriving DecidableEq

/-- The four relational tables touched by the persistence coordinator. -/
structure DB where
  resumes : List ResumeRow
  skills : List Skill
  feedback : List Feedback
  matched_jobs : List Job
deriving DecidableEq

/-- Outcomes of the individual Supabase calls issued by
`updateResumeWithAnalysis` and `getResumeData`: `some e` means that call
reports error `e`, `none` means it succeeds. -/
structure PersistEnv where
  resumeUpdateError : Option String
  skillsInsertError : Option String
  feedbackInsertError : Option String
  jobsInsertError : Option String
  resumeReadError : Option String
deriving DecidableEq

/-- Model of `typeof v === 'number' ? v : d` (lines 96, 98, 113, 115 of
src/unnamed/part_001). -/
def numberOrDefault (v : JSValue) (d : ℚ) : ℚ :=
  match v with
  | .num q => q
  | _ => d

/-- The skill row built for insertion (line 113 of src/unnamed/part_001):
spread of the raw skill plus `resume_id` and the sanitized confidence. -/
def skillToInsert (resumeId : String) (s : RawSkill) : Skill :=
  { id := none
    resume_id := some resumeId
    name := s.name
    category := s.category
    confidence := numberOrDefault s.confidence (8 / 10)
    experience_years := s.experience_years }

/-- The feedback row built for insertion (line 114 of src/unnamed/part_001). -/
def feedbackToInsert (resumeId : String) (f : String) : Feedback :=
  { id := none
    resume_id := some resumeId
    suggestion := f }

/-- The job row built for insertion (line 115 of src/unnamed/part_001):
spread of the raw job plus `resume_id` and the sanitized match percentage. -/
def jobToInsert (resumeId : String) (j : RawJob) : Job :=
  { id := none
    resume_id := some resumeId
    title := j.title
    company := j.company
    location := j.location
    match_percentage := numberOrDefault j.match_percentage 0
    apply_url := j.apply_url
    description := j.description
    salary_range := j.salary_range
    experience_required := j.experience_required
    job_type := j.job_type }

/-- Outcome of one conditional insert (lines 118-120 of src/unnamed/part_001):
an insert is only issued when the row list is non-empty, otherwise the source
substitutes `Promise.resolve({ error: null })`. -/
def insertResult {α : Type} (ins : List α) (err : Option String) : Option String :=
  if ins.isEmpty then none else err

/-- Rows actually added to a table by one conditional insert: a failing or
skipped insert adds nothing. -/
def appliedRows {α : Type} (ins : List α) (res : Option String) : List α :=
  match res with
  | none => ins
  | some _ => []

/-- The first error among the three insert results, in the order the source's
for-loop inspects them (lines 123-125 of src/unnamed/part_001). -/
def firstError : Option String → Option String → Option String → Option String
  | some e, _, _ => some e
  | none, some e, _ => some e
  | none, none, r => r

/-- Model of `getResumeData` (lines 40-58 of src/unnamed/part_001): a single
select of the header row joined with the three child collections; a reported
error or a missing row is thrown, modelled as `Except.error`. -/
def getResumeData (db : DB) (readErr : Option String) (id : String) :
    Except String Resume :=
  match readErr with
  | some e => .error e
  | none =>
    match db.resumes.find? (fun r => r.id == id) with
    | none => .error "row not found"
    | some r =>
      .ok { id := r.id
            user_id := r.user_id
            filename := r.filename
            file_url := r.file_url
            extracted_text := r.extracted_text
            skills := db.skills.filter (fun s => s.resume_id == some id)
            score := r.score
            feedback := db.feedback.filter (fun f => f.resume_id == some id)
            matched_jobs := db.matched_jobs.filter (fun j => j.resume_id == some id)
            experience_level := r.experience_level
            total_experience := r.total_experience
            status := r.status
            created_at := r.created_at }

/-- The sanitized header fields written by the update of lines 100-109 of
src/unnamed/part_001, including `status: 'completed'`. -/
def updatedHeaderRow (analysis : AnalysisData) (r : ResumeRow) : ResumeRow :=
  { r with
    score := numberOrDefault analysis.score 0
    experience_level := analysis.experience_level.getD .entryLevel
    total_experience := numberOrDefault analysis.total_experience 0
    extracted_text := some analysis.extracted_text
    status := .completed }

/-- Effect of the header update (lines 100-109 of src/unnamed/part_001) on
the resumes table. -/
def headerUpdate (resumeId : String) (analysis : AnalysisData) (db : DB) : DB :=
  { db with
    resumes := db.resumes.map (fun r =>
      if r.id == resumeId then updatedHeaderRow analysis r else r) }

/-- Rows `skillsToInsert` of line 113 of src/unnamed/part_001. -/
def skillsInsList (resumeId : String) (analysis : AnalysisData) : List Skill :=
  (analysis.skills.getD []).map (skillToInsert resumeId)

/-- Rows `feedbackToInsert` of line 114 of src/unnamed/part_001. -/
def feedbackInsList (resumeId : String) (analysis : AnalysisData) : List Feedback :=
  (analysis.feedback.getD []).map (feedbackToInsert resumeId)

/-- Rows `jobsToInsert` of line 115 of src/unnamed/part_001. -/
def jobsInsList (resumeId : String) (analysis : AnalysisData) : List Job :=
  (analysis.matched_jobs.getD []).map (jobToInsert resumeId)

/-- Effect of the three conditional inserts issued by `Promise.all` (lines
117-121 of src/unnamed/part_001) on the tables: all three are attempted, and
each failing insert adds no rows without preventing the others. -/
def childInserts (resumeId : String) (analysis : AnalysisData)
    (env : PersistEnv) (db : DB) : DB :=
  { db with
    skills := db.skills ++
      appliedRows (skillsInsList resumeId analysis)
        (insertResult (skillsInsList resumeId analysis) env.skillsInsertError)
    feedback := db.feedback ++
      appliedRows (feedbackInsList resumeId analysis)
        (insertResult (feedbackInsList resumeId analysis) env.feedbackInsertError)
    matched_jobs := db.matched_jobs ++
      appliedRows (jobsInsList resumeId analysis)
        (insertResult (jobsInsList resumeId analysis) env.jobsInsertError) }

/-- Model of `updateResumeWithAnalysis` (lines 88-135 of src/unnamed/part_001).

Control flow of the source: sanitize the scalar fields; update the header row
(setting `status: 'completed'`); if that update reports an error, throw (the
catch converts it into `{ data: null, error }` and the state is unchanged);
otherwise issue the three conditional child inserts via `Promise.all` (all are
attempted; each failing insert adds no rows but does not prevent the others);
throw the first insert error found, reaching the catch with the partial state
kept; on full success re-read the composite record and return it. -/
def updateResumeWithAnalysis (resumeId : String) (analysis : AnalysisData)
    (env : PersistEnv) (db : DB) : (Option Resume × Option String) × DB :=
  match env.resumeUpdateError with
  | some e => ((none, some e), db)
  | none =>
    let db2 := childInserts resumeId analysis env (headerUpdate resumeId analysis db)
    match firstError
        (insertResult (skillsInsList resumeId analysis) env.skillsInsertError)
        (insertResult (feedbackInsList resumeId analysis) env.feedbackInsertError)
        (insertResult (jobsInsList resumeId analysis) env.jobsInsertError) with
    | some e => ((none, some e), db2)
    | none =>
      match getResumeData db2 env.resumeReadError resumeId with
      | .error e => ((none, some e), db2)
      | .ok r => ((some r, none), db2)

/-! ## Job grounding resolver, grounded-search variants
(src/services/apiService.ts lines 92-133 and src/lib/supabase.ts lines 105-135) -/

/-- JavaScript whitespace test used by `String.prototype.trim` (restricted to
the whitespace characters that can occur in this pipeline's strings). -/
def isWS (c : Char) : Bool :=
  c == ' ' || c == '\n' || c == '\t' || c == '\r'

/-- Model of `String.prototype.trim`: strip leading and trailing whitespace. -/
def jsTrim (s : List Char) : List Char :=
  ((s.dropWhile isWS).reverse.dropWhile isWS).reverse

/-- Index of the first occurrence of `pat` as a contiguous substring of `s`. -/
def findSub (pat : List Char) : List Char → Option Nat
  | [] => if pat.isPrefixOf ([] : List Char) then some 0 else none
  | c :: rest =>
    if pat.isPrefixOf (c :: rest) then some 0
    else (findSub pat rest).map (fun n => n + 1)

/-- The literal opening fence of the regex, three backticks then "json" then a
newline (backticks written as \x60). -/
def fenceOpen : List Char :=
  '\x60' :: '\x60' :: '\x60' :: 'j' :: 's' :: 'o' :: 'n' :: '\n' :: []

/-- The literal closing fence of the regex, a newline then three backticks. -/
def fenceClose : List Char :=
  '\n' :: '\x60' :: '\x60' :: '\x60' :: []

/-- Capture group 1 of the JavaScript regex matching an opening fence, a lazy
any-character group, and a closing fence (lines 106 and 122 of
src/services/apiService.ts).  The regex is unanchored and the group is lazy,
so the match starts at the first opening fence followed by some closing fence,
and the group ends at the first closing fence after it. -/
def regexFenceGroup (s : List Char) : Option (List Char) :=
  match findSub fenceOpen s with
  | none => none
  | some i =>
    match findSub fenceClose (s.drop (i + fenceOpen.length)) with
    | none => none
    | some j => some ((s.drop (i + fenceOpen.length)).take j)

/-- Lines 106-109 of src/services/apiService.ts: replace the text by the
regex's capture group when the regex matches and the group is truthy (a
captured empty string is falsy in JavaScript, so it is not substituted). -/
def stripFence (t : List Char) : List Char :=
  match regexFenceGroup t with
  | some g => if g.isEmpty then t else g
  | none => t

/-- A JavaScript value produced by a successful `JSON.parse` in the job
resolvers, as far as the pipeline distinguishes them: the falsy `null` (the
source guards the first parse with `jobs || []`) or an array of jobs. -/
inductive JSONValue
  | null
  | arr (jobs : List Job)
deriving DecidableEq

/-- A request sent to the generative-model endpoint by a grounded-search job
resolver: either the initial search prompt embedding the job titles, or the
follow-up repair prompt embedding the offending unparsable text (the literal
instruction wording around them plays no role and is elided). -/
inductive GenRequest
  | search (titles : List String)
  | repair (offending : List Char)
deriving DecidableEq

/-- Environment of a grounded-search resolver run: the response text (or
thrown network error) of the endpoint for each request, and the behaviour of
`JSON.parse` on each string (`none` models a thrown SyntaxError). -/
structure GenEnv where
  respond : GenRequest → Except Unit (List Char)
  parse : List Char → Option JSONValue

namespace GroundedSearch

/-- Model of `findMatchingJobs` (src/services/apiService.ts lines 92-133).
Returns the resolved value together with the list of requests issued.  The
source's outer try/catch converts every thrown error into `[]`; the inner
catch around the first parse issues one repair request whose own parse failure
propagates to the outer catch. -/
def findMatchingJobs (jobTitles : List String) (env : GenEnv) :
    JSONValue × List GenRequest :=
  if jobTitles.isEmpty then (.arr [], [])
  else
    match env.respond (.search jobTitles) with
    | .error _ => (.arr [], [.search jobTitles])
    | .ok text =>
      let jsonText := stripFence (jsTrim text)
      match env.parse jsonText with
      | some v =>
        ((match v with
          | .null => .arr []
          | .arr l => .arr l), [.search jobTitles])
      | none =>
        match env.respond (.repair jsonText) with
        | .error _ => (.arr [], [.search jobTitles, .repair jsonText])
        | .ok fixText =>
          let fixedJsonText := stripFence (jsTrim fixText)
          match env.parse fixedJsonText with
          | some v => (v, [.search jobTitles, .repair jsonText])
          | none => (.arr [], [.search jobTitles, .repair jsonText])

end GroundedSearch

/-- First seven characters of an opening fence, the plain "```json" head
tested by `startsWith` in src/lib/supabase.ts line 122. -/
def fenceJsonHead : List Char :=
  '\x60' :: '\x60' :: '\x60' :: 'j' :: 's' :: 'o' :: 'n' :: []

/-- Three bare backticks, tested by `startsWith` in src/lib/supabase.ts
line 124. -/
def fenceTicks : List Char :=
  '\x60' :: '\x60' :: '\x60' :: []

/-- Model of `String.prototype.substring`: clamp both indices to the length,
swap them if out of order, and take the characters in between. -/
def jsSubstring (s : List Char) (a b : Nat) : List Char :=
  (s.drop (min (min a s.length) (min b s.length))).take
    (max (min a s.length) (min b s.length) - min (min a s.length) (min b s.length))

namespace SupabaseLib

/-- Model of `findMatchingJobs` (src/lib/supabase.ts lines 105-135).  This
variant strips fences with `startsWith`/`substring`/`trim` instead of a regex
and has no repair request: any parse failure reaches the catch and yields
an empty array. -/
def findMatchingJobs (jobTitles : List String) (env : GenEnv) :
    JSONValue × List GenRequest :=
  if jobTitles.isEmpty then (.arr [], [])
  else
    match env.respond (.search jobTitles) with
    | .error _ => (.arr [], [.search jobTitles])
    | .ok text =>
      let s0 := jsTrim text
      let jsonString :=
        if fenceJsonHead.isPrefixOf s0 then
          jsTrim (jsSubstring s0 7 (s0.length - 3))
        else if fenceTicks.isPrefixOf s0 then
          jsTrim (jsSubstring s0 3 (s0.length - 3))
        else s0
      match env.parse jsonString with
      | some v => (v, [.search jobTitles])
      | none => (.arr [], [.search jobTitles])

end SupabaseLib

/-! ## Job grounding resolver, direct search API variant
(src/services/apiService.ts lines 226-269) -/

namespace DirectSearch

/-- The `job_required_experience` sub-object of a JSearch record. -/
structure RequiredExperience where
  required_experience_in_months : Option ℚ
deriving DecidableEq

/-- One raw job record of the JSearch response body, restricted to the fields
the normalization reads.  Optional fields model absent (undefined) values. -/
structure RawJSearchJob where
  job_title : String
  employer_name : String
  job_city : Option String
  job_state : String
  job_country : String
  job_apply_link : String
  job_description : String
  job_min_salary : Option ℚ
  job_max_salary : Option ℚ
  job_salary_currency : String
  job_required_experience : Option RequiredExperience
  job_employment_type : Option String
deriving DecidableEq

/-- The JSON body of a JSearch response; `data` may be absent. -/
structure JSearchResult where
  data : Option (List RawJSearchJob)
deriving DecidableEq

/-- A resolved fetch response: HTTP ok flag, status, and the parsed JSON body
(`none` models a body that fails to parse). -/
structure FetchResponse where
  ok : Bool
  status : Nat
  body : Option JSearchResult
deriving DecidableEq

/-- Environment of a direct-search resolver run: the outcome of the single
fetch (`Except.error` models a network failure) and the values drawn by the
successive `Math.random()` calls, each in `[0, 1)`. -/
structure FetchEnv where
  fetch : Except Unit FetchResponse
  random : Nat → ℚ

/-- JavaScript truthiness of a possibly absent string (an absent value and
the empty string are falsy). -/
def strTruthy : Option String → Bool
  | none => false
  | some s => !s.isEmpty

/-- JavaScript truthiness of a possibly absent number (an absent value and
zero are falsy). -/
def numTruthy : Option ℚ → Bool
  | none => false
  | some q => if q = 0 then false else true

/-- Model of `Math.round`: round half toward positive infinity. -/
def jsRound (q : ℚ) : ℤ := ⌊q + 1 / 2⌋

/-- Normalization of one JSearch record into the Job shape (lines 250-264 of
src/services/apiService.ts).  `i` is the index of the `Math.random()` call
made for this record's placeholder match percentage. -/
def normalizeJob (random : Nat → ℚ) (i : Nat) (job : RawJSearchJob) : Job :=
  { id := none
    resume_id := none
    title := job.job_title
    company := job.employer_name
    location :=
      if strTruthy job.job_city then
        job.job_city.getD "" ++ ", " ++ job.job_state
      else job.job_country
    match_percentage := ((⌊random i * (95 - 75 + 1) + 75⌋ : ℤ) : ℚ)
    apply_url := job.job_apply_link
    description := job.job_description
    salary_range :=
      if numTruthy job.job_min_salary && numTruthy job.job_max_salary then
        "$" ++ toString (job.job_min_salary.getD 0) ++ " - $" ++
          toString (job.job_max_salary.getD 0) ++ " " ++ job.job_salary_currency
      else "Not specified"
    experience_required :=
      match job.job_required_experience with
      | some re =>
        if numTruthy re.required_experience_in_months then
          toString (jsRound (re.required_experience_in_months.getD 0 / 12)) ++ " years"
        else "Not specified"
      | none => "Not specified"
    job_type :=
      if strTruthy job.job_employment_type then job.job_employment_type.getD ""
      else "FULLTIME" }

/-- Map with the index of the `Math.random()` call threaded through, modelling
`Array.prototype.map` over records each drawing one random number. -/
def mapWithIndex {α β : Type} (f : Nat → α → β) : Nat → List α → List β
  | _, [] => []
  | i, a :: as => f i a :: mapWithIndex f (i + 1) as

/-- Model of `findMatchingJobs` (src/services/apiService.ts lines 226-269).
Returns the job list together with the number of fetches issued.  A network
failure, a non-ok status (the source throws on `!response.ok`), an unparsable
body, or an absent `data` field all yield the empty list. -/
def findMatchingJobs (jobTitles : List String) (env : FetchEnv) :
    List Job × Nat :=
  if jobTitles.isEmpty then ([], 0)
  else
    match env.fetch with
    | .error _ => ([], 1)
    | .ok resp =>
      if !resp.ok then ([], 1)
      else
        match resp.body with
        | none => ([], 1)
        | some result =>
          match result.data with
          | none => ([], 1)
          | some ds => (mapWithIndex (normalizeJob env.random) 0 (ds.take 10), 1)

end DirectSearch

/-! ## Upload size gate (src/pages/Upload.tsx lines 19-29) -/

namespace UploadPage

/-- A file offered to the dropzone, as far as `onDrop` inspects it. -/
structure DroppedFile where
  name : String
  size : Nat
deriving DecidableEq

/-- The component state touched by `onDrop`: the selected file and the error
message. -/
structure UploadState where
  file : Option DroppedFile
  error : Option String
deriving DecidableEq

/-- Model of the `onDrop` callback: with no accepted file the state is
unchanged; an oversize first file only sets the error message; otherwise the
file is stored and the error cleared.  `onDrop` issues no network request:
the only network activity of the page lives in `handleAnalyze`, which runs
later and only on a stored file. -/
def onDrop (acceptedFiles : List DroppedFile) (st : UploadState) : UploadState :=
  match acceptedFiles with
  | [] => st
  | selectedFile :: _ =>
    if selectedFile.size > 5 * 1024 * 1024 then
      { st with error := some "File size must be less than 5MB." }
    else
      { file := some selectedFile, error := none }

end UploadPage

/-! ## Helper lemmas -/

/-! ## Concrete witness inputs -/
/-- A concrete JSearch record without usable salary, experience, or match
data, used to witness C9. -/
def c9job : DirectSearch.RawJSearchJob :=
  { job_title := "Backend Engineer"
    employer_name := "Acme"
    job_city := some "Pune"
    job_state := "MH"
    job_country := "India"
    job_apply_link := "https://jobs.example/1"
    job_description := "Build services."
    job_min_salary := none
    job_max_salary := none
    job_salary_currency := "INR"
    job_required_experience := none
    job_employment_type := some "FULLTIME" }

/-- A concrete direct-search environment whose fetch succeeds with one record
and whose random draws are all one half, used to witness C9. -/
def c9env : DirectSearch.FetchEnv :=
  { fetch := .ok { ok := true, status := 200, body := some { data := some [c9job] } }
    random := fun _ => 1 / 2 }

/-- A concrete grounded-search environment whose first response is unparsable
and whose repair response is a valid empty JSON array, used to witness C3. -/
def c3env : GenEnv :=
  { respond := fun r =>
      match r with
      | .search _ => .ok ('n' :: 'o' :: 'p' :: 'e' :: [])
      | .repair _ => .ok ('[' :: ']' :: [])
    parse := fun s => if s = ('[' :: ']' :: []) then some (.arr []) else none }

/-- A grounded-search environment whose every request throws, used to witness
C4. -/
def c4envGen : GenEnv :=
  { respond := fun _ => .error ()
    parse := fun _ => none }

/-- A direct-search environment whose fetch rejects, used to witness C4. -/
def c4envD : DirectSearch.FetchEnv :=
  { fetch := .error ()
    random := fun _ => 0 }

/-- A skill with missing confidence, used to witness C5. -/
def c5skill : RawSkill :=
  { name := "Go"
    category := .technical
    confidence := .undef
    experience_years := none }

/-- A matched job with missing match percentage, used to witness C5. -/
def c5job : RawJob :=
  { title := "Backend Engineer"
    company := "Acme"
    location := "Pune"
    match_percentage := .undef
    apply_url := "https://jobs.example/1"
    description := "Build services."
    salary_range := "Not specified"
    experience_required := "2+ years"
    job_type := "Full-time" }

/-- An analysis with a string score and the defaulted child fields, used to
witness C5. -/
def c5analysis : AnalysisData :=
  { score := .str "abc"
    feedback := some ["Add metrics"]
    skills := some [c5skill]
    experience_level := some .midLevel
    total_experience := .num 4
    matched_jobs := some [c5job]
    extracted_text := "text" }

/-- A persistence environment in which every call succeeds, used to witness
C5. -/
def c5env : PersistEnv :=
  { resumeUpdateError := none
    skillsInsertError := none
    feedbackInsertError := none
    jobsInsertError := none
    resumeReadError := none }

/-- A processing placeholder row, used to witness C5. -/
def c5row : ResumeRow :=
  { id := "r1"
    user_id := "u1"
    filename := "cv.pdf"
    file_url := "https://files.example/cv.pdf"
    extracted_text := none
    score := 0
    experience_level := .entryLevel
    total_experience := 0
    status := .processing
    created_at := "2026-01-01" }

/-- A database holding only the placeholder row, used to witness C5. -/
def c5db : DB :=
  { resumes := [c5row]
    skills := []
    feedback := []
    matched_jobs := [] }

/-- A skill with numeric confidence, used to witness C2. -/
def c2skill : RawSkill :=
  { name := "Go"
    category := .technical
    confidence := .num (9 / 10)
    experience_years := none }

/-- A matched job with numeric match percentage, used to witness C2. -/
def c2job : RawJob :=
  { title := "Backend Engineer"
    company := "Acme"
    location := "Pune"
    match_percentage := .num 80
    apply_url := "https://jobs.example/1"
    description := "Build services."
    salary_range := "10-15 LPA"
    experience_required := "2+ years"
    job_type := "Full-time" }

/-- A full analysis with one row of each child kind, used to witness C2. -/
def c2analysis : AnalysisData :=
  { score := .num 82
    feedback := some ["Add metrics"]
    skills := some [c2skill]
    experience_level := some .midLevel
    total_experience := .num 4
    matched_jobs := some [c2job]
    extracted_text := "text" }

/-- A persistence environment in which only the jobs insert fails, used to
witness C2. -/
def c2env : PersistEnv :=
  { resumeUpdateError := none
    skillsInsertError := none
    feedbackInsertError := none
    jobsInsertError := some "jobs insert failed"
    resumeReadError := none }

/-- A processing placeholder row, used to witness C2. -/
def c2row : ResumeRow :=
  { id := "r1"
    user_id := "u1"
    filename := "cv.pdf"
    file_url := "https://files.example/cv.pdf"
    extracted_text := none
    score := 0
    experience_level := .entryLevel
    total_experience := 0
    status := .processing
    created_at := "2026-01-01" }

/-- A database holding only the placeholder row, used to witness C2. -/
def c2db : DB :=
  { resumes := [c2row]
    skills := []
    feedback := []
    matched_jobs := [] }

/-- A matched job, used for the C1 counterexample and witness. -/
def c1job : RawJob :=
  { title := "Backend Engineer"
    company := "Acme"
    location := "Pune"
    match_percentage := .num 80
    apply_url := "https://jobs.example/1"
    description := "Build services."
    salary_range := "10-15 LPA"
    experience_required := "2+ years"
    job_type := "Full-time" }

/-- An analysis whose only child rows are one matched job, used for the C1
counterexample and witness. -/
def c1analysis : AnalysisData :=
  { score := .num 82
    feedback := none
    skills := none
    experience_level := some .midLevel
    total_experience := .num 4
    matched_jobs := some [c1job]
    extracted_text := "text" }

/-- A persistence environment in which only the jobs insert fails, used for
the C1 counterexample and witness. -/
def c1env : PersistEnv :=
  { resumeUpdateError := none
    skillsInsertError := none
    feedbackInsertError := none
    jobsInsertError := some "jobs insert failed"
    resumeReadError := none }

/-- A processing placeholder row, used for the C1 counterexample and
witness. -/
def c1row : ResumeRow :=
  { id := "r1"
    user_id := "u1"
    filename := "cv.pdf"
    file_url := "https://files.example/cv.pdf"
    extracted_text := none
    score := 0
    experience_level := .entryLevel
    total_experience := 0
    status := .processing
    created_at := "2026-01-01" }

/-- A database holding only the placeholder row, used for the C1
counterexample and witness. -/
def c1db : DB :=
  { resumes := [c1row]
    skills := []
    feedback := []
    matched_jobs := [] }

/-- A grounded-search environment whose first response is an empty JSON array
wrapped in a fenced code block, used to witness C6. -/
def c6env : GenEnv :=
  { respond := fun _ => .ok (fenceOpen ++ ('[' :: ']' :: []) ++ fenceClose)
    parse := fun s => if s = ('[' :: ']' :: []) then some (.arr []) else none }

lemma length_mapWithIndex {α β : Type} (f : Nat → α → β) :
    ∀ (i : Nat) (l : List α), (DirectSearch.mapWithIndex f i l).length = l.length
  | _, [] => rfl
  | i, _ :: as => by
    simp [DirectSearch.mapWithIndex, length_mapWithIndex f (i + 1) as]

lemma mem_mapWithIndex {α β : Type} (f : Nat → α → β) (l : List α) :
    ∀ (i : Nat) (b : β), b ∈ DirectSearch.mapWithIndex f i l →
      ∃ j a, a ∈ l ∧ b = f j a := by
  induction l with
  | nil =>
    intro i b hb
    simp [DirectSearch.mapWithIndex] at hb
  | cons a as ih =>
    intro i b hb
    simp only [DirectSearch.mapWithIndex, List.mem_cons] at hb
    rcases hb with hb | hb
    · exact ⟨i, a, by simp, hb⟩
    · rcases ih (i + 1) b hb with ⟨j, a', ha', hb'⟩
      exact ⟨j, a', by simp [ha'], hb'⟩

lemma insertResult_none {α : Type} (ins : List α) : insertResult ins none = none := by
  simp [insertResult]

lemma insertResult_ne_none {α : Type} (ins : List α) (err : Option String)
    (h1 : ins ≠ []) (h2 : err ≠ none) : insertResult ins err ≠ none := by
  have : ins.isEmpty = false := by
    cases ins
    · exact absurd rfl h1
    · rfl
  simp [insertResult, this, h2]

lemma firstError_ne_none (a b c : Option String)
    (h : a ≠ none ∨ b ≠ none ∨ c ≠ none) : firstError a b c ≠ none := by
  rcases a with _ | ea <;> rcases b with _ | eb <;> rcases c with _ | ec <;>
    simp [firstError] at h ⊢

/-- When the header update succeeds, the final database state is the header
update followed by the attempted child inserts, whatever the insert and
re-read outcomes are. -/
lemma updateResume_db (resumeId : String) (analysis : AnalysisData)
    (env : PersistEnv) (db : DB) (hupd : env.resumeUpdateError = none) :
    (updateResumeWithAnalysis resumeId analysis env db).2 =
      childInserts resumeId analysis env (headerUpdate resumeId analysis db) := by
  unfold updateResumeWithAnalysis
  rw [hupd]
  rcases hfe : firstError
      (insertResult (skillsInsList resumeId analysis) env.skillsInsertError)
      (insertResult (feedbackInsList resumeId analysis) env.feedbackInsertError)
      (insertResult (jobsInsList resumeId analysis) env.jobsInsertError) with _ | e
  · rcases hgd : getResumeData
        (childInserts resumeId analysis env (headerUpdate resumeId analysis db))
        env.resumeReadError resumeId with e | r <;>
      simp [hfe, hgd]
  · simp [hfe]

/-- When the header update succeeds and some issued insert fails, the call
returns no record and a reported error. -/
lemma updateResume_result_of_insert_failure (resumeId : String)
    (analysis : AnalysisData) (env : PersistEnv) (db : DB)
    (hupd : env.resumeUpdateError = none)
    (hfail : (analysis.skills.getD [] ≠ [] ∧ env.skillsInsertError ≠ none) ∨
             (analysis.feedback.getD [] ≠ [] ∧ env.feedbackInsertError ≠ none) ∨
             (analysis.matched_jobs.getD [] ≠ [] ∧ env.jobsInsertError ≠ none)) :
    (updateResumeWithAnalysis resumeId analysis env db).1.1 = none ∧
    (updateResumeWithAnalysis resumeId analysis env db).1.2 ≠ none := by
  have hfe : firstError
      (insertResult (skillsInsList resumeId analysis) env.skillsInsertError)
      (insertResult (feedbackInsList resumeId analysis) env.feedbackInsertError)
      (insertResult (jobsInsList resumeId analysis) env.jobsInsertError) ≠ none := by
    apply firstError_ne_none
    rcases hfail with ⟨h1, h2⟩ | ⟨h1, h2⟩ | ⟨h1, h2⟩
    · exact Or.inl (insertResult_ne_none _ _ (by simp [skillsInsList, h1]) h2)
    · exact Or.inr (Or.inl (insertResult_ne_none _ _ (by simp [feedbackInsList, h1]) h2))
    · exact Or.inr (Or.inr (insertResult_ne_none _ _ (by simp [jobsInsList, h1]) h2))
  rcases he : firstError
      (insertResult (skillsInsList resumeId analysis) env.skillsInsertError)
      (insertResult (feedbackInsList resumeId analysis) env.feedbackInsertError)
      (insertResult (jobsInsList resumeId analysis) env.jobsInsertError) with _ | e
  · exact absurd he hfe
  · unfold updateResumeWithAnalysis
    rw [hupd]
    simp [he]

/-! ## Claim theorems -/

/-- Claim C7: for every empty job-title sequence, each variant of the job resolver
returns the empty sequence immediately and issues no network request. -/
theorem resolveJobs_empty_titles_no_request (env envSB : GenEnv)
    (envD : DirectSearch.FetchEnv) :
    GroundedSearch.findMatchingJobs [] env = (.arr [], []) ∧
    SupabaseLib.findMatchingJobs [] envSB = (.arr [], []) ∧
    DirectSearch.findMatchingJobs [] envD = ([], 0) :=
  ⟨rfl, rfl, rfl⟩

/-- Claim C8: a dropped file of exactly 5 * 1024 * 1024 bytes is accepted (stored
in the state with the error cleared), and a file one byte over the ceiling is
rejected with the size error inside `onDrop`, which issues no network call
and does not store the file, so no later network stage can involve it. -/
theorem upload_size_boundary (f : UploadPage.DroppedFile)
    (st : UploadPage.UploadState) :
    (f.size = 5 * 1024 * 1024 →
      UploadPage.onDrop [f] st = { file := some f, error := none }) ∧
    (f.size = 5 * 1024 * 1024 + 1 →
      UploadPage.onDrop [f] st =
        { st with error := some "File size must be less than 5MB." }) := by
  constructor
  · intro h
    simp [UploadPage.onDrop, h]
  · intro h
    simp [UploadPage.onDrop, h]

/-- Witness for C8 at the two boundary sizes. -/
theorem upload_size_boundary_witness :
    UploadPage.onDrop [⟨"resume.pdf", 5242880⟩] ⟨none, none⟩ =
      ⟨some ⟨"resume.pdf", 5242880⟩, none⟩ ∧
    UploadPage.onDrop [⟨"resume.pdf", 5242881⟩] ⟨none, none⟩ =
      ⟨none, some "File size must be less than 5MB."⟩ :=
  ⟨(upload_size_boundary ⟨"resume.pdf", 5242880⟩ ⟨none, none⟩).1 rfl,
   (upload_size_boundary ⟨"resume.pdf", 5242881⟩ ⟨none, none⟩).2 rfl⟩

/-- Claim C10: the direct-search resolver returns at most 10 job listings, whatever
the backend response holds. -/
theorem direct_search_at_most_ten (titles : List String)
    (env : DirectSearch.FetchEnv) :
    (DirectSearch.findMatchingJobs titles env).1.length ≤ 10 := by
  rcases titles with _ | ⟨t, ts⟩
  · simp [DirectSearch.findMatchingJobs]
  · rcases henv : env.fetch with e | resp
    · simp [DirectSearch.findMatchingJobs, henv]
    · rcases resp with ⟨ok, status, body⟩
      cases ok
      · simp [DirectSearch.findMatchingJobs, henv]
      · rcases body with _ | ⟨data⟩
        · simp [DirectSearch.findMatchingJobs, henv]
        · rcases data with _ | ds
          · simp [DirectSearch.findMatchingJobs, henv]
          · simp [DirectSearch.findMatchingJobs, henv, length_mapWithIndex,
              List.length_take]

/-- Claim C9: whenever the `Math.random()` draws lie in `[0, 1)` (as they do), every
job listing returned by the direct-search resolver carries a synthesized
match percentage in the closed interval `[75, 95]`.  The source computes it
for every record, in particular for records without a usable backend value. -/
theorem direct_search_match_percentage_bounds (titles : List String)
    (env : DirectSearch.FetchEnv)
    (hr : ∀ n, 0 ≤ env.random n ∧ env.random n < 1) :
    ∀ job ∈ (DirectSearch.findMatchingJobs titles env).1,
      75 ≤ job.match_percentage ∧ job.match_percentage ≤ 95 := by
  intro job hj
  have hmem : ∃ i raw, job = DirectSearch.normalizeJob env.random i raw := by
    rcases titles with _ | ⟨t, ts⟩
    · simp [DirectSearch.findMatchingJobs] at hj
    · rcases henv : env.fetch with e | resp
      · simp [DirectSearch.findMatchingJobs, henv] at hj
      · rcases resp with ⟨ok, status, body⟩
        cases ok
        · simp [DirectSearch.findMatchingJobs, henv] at hj
        · rcases body with _ | ⟨data⟩
          · simp [DirectSearch.findMatchingJobs, henv] at hj
          · rcases data with _ | ds
            · simp [DirectSearch.findMatchingJobs, henv] at hj
            · simp only [DirectSearch.findMatchingJobs, henv] at hj
              norm_num at hj
              rcases mem_mapWithIndex _ _ _ _ hj with ⟨i, raw, _, hb⟩
              exact ⟨i, raw, hb⟩
  rcases hmem with ⟨i, raw, rfl⟩
  rcases hr i with ⟨h0, h1⟩
  have hlow : (75 : ℤ) ≤ ⌊env.random i * (95 - 75 + 1) + 75⌋ := by
    apply Int.le_floor.mpr
    push_cast
    nlinarith
  have hhigh : ⌊env.random i * (95 - 75 + 1) + 75⌋ < 96 := by
    apply Int.floor_lt.mpr
    push_cast
    nlinarith
  constructor
  · show (75 : ℚ) ≤ ((⌊env.random i * (95 - 75 + 1) + 75⌋ : ℤ) : ℚ)
    exact_mod_cast hlow
  · show ((⌊env.random i * (95 - 75 + 1) + 75⌋ : ℤ) : ℚ) ≤ 95
    have : ⌊env.random i * (95 - 75 + 1) + 75⌋ ≤ 95 := by omega
    exact_mod_cast this

/-- Witness for C9 on a concrete backend record. -/
theorem direct_search_match_percentage_bounds_witness :
    75 ≤ (DirectSearch.normalizeJob (fun _ => 1 / 2) 0 c9job).match_percentage ∧
    (DirectSearch.normalizeJob (fun _ => 1 / 2) 0 c9job).match_percentage ≤ 95 := by
  have h := direct_search_match_percentage_bounds ["Backend Engineer"] c9env
    (by intro n; constructor <;> norm_num [c9env])
    (DirectSearch.normalizeJob (fun _ => 1 / 2) 0 c9job)
    (by simp [DirectSearch.findMatchingJobs, c9env, DirectSearch.mapWithIndex])
  exact h

/-- Claim C3: when the first-pass response arrives but its parse fails, the
grounded-search resolver issues exactly one follow-up repair request carrying
the offending (stripped) text and parses its output once: a valid repair
output is returned as the result, and a second parse failure yields the empty
sequence with no further requests.  The request log is exactly the initial
search followed by the single repair, in every outcome of the repair call. -/
theorem grounded_repair_single_attempt (titles : List String) (env : GenEnv)
    (text : List Char)
    (ht : titles ≠ [])
    (hresp : env.respond (.search titles) = .ok text)
    (hfail : env.parse (stripFence (jsTrim text)) = none) :
    (GroundedSearch.findMatchingJobs titles env).2 =
      [.search titles, .repair (stripFence (jsTrim text))] ∧
    (∀ fixText v, env.respond (.repair (stripFence (jsTrim text))) = .ok fixText →
      env.parse (stripFence (jsTrim fixText)) = some v →
      (GroundedSearch.findMatchingJobs titles env).1 = v) ∧
    (∀ fixText, env.respond (.repair (stripFence (jsTrim text))) = .ok fixText →
      env.parse (stripFence (jsTrim fixText)) = none →
      (GroundedSearch.findMatchingJobs titles env).1 = .arr []) := by
  have hne : titles.isEmpty = false := by
    cases titles <;> simp_all
  refine ⟨?_, ?_, ?_⟩
  · rcases h : env.respond (.repair (stripFence (jsTrim text))) with e | fixText
    · simp [GroundedSearch.findMatchingJobs, hne, hresp, hfail, h]
    · rcases hp : env.parse (stripFence (jsTrim fixText)) with _ | v <;>
        simp [GroundedSearch.findMatchingJobs, hne, hresp, hfail, h, hp]
  · intro fixText v h1 h2
    simp [GroundedSearch.findMatchingJobs, hne, hresp, hfail, h1, h2]
  · intro fixText h1 h2
    simp [GroundedSearch.findMatchingJobs, hne, hresp, hfail, h1, h2]

/-- Witness for C3: one repair request carrying the offending text, and the
repaired result returned. -/
theorem grounded_repair_single_attempt_witness :
    (GroundedSearch.findMatchingJobs ["Backend Engineer"] c3env).2 =
      [.search ["Backend Engineer"], .repair ('n' :: 'o' :: 'p' :: 'e' :: [])] ∧
    (GroundedSearch.findMatchingJobs ["Backend Engineer"] c3env).1 = .arr [] := by
  have h := grounded_repair_single_attempt ["Backend Engineer"] c3env
    ('n' :: 'o' :: 'p' :: 'e' :: []) (by simp) rfl (by decide)
  have hstrip : stripFence (jsTrim ('n' :: 'o' :: 'p' :: 'e' :: [])) =
      ('n' :: 'o' :: 'p' :: 'e' :: []) := by decide
  refine ⟨?_, ?_⟩
  · rw [h.1, hstrip]
  · exact h.2.1 ('[' :: ']' :: []) (.arr []) rfl (by decide)

/-- Claim C4: the job resolvers catch every unrecoverable error locally and return
the empty sequence: a thrown network request, a `JSON.parse` that fails on
every string (so both the first parse and the repair parse fail), a fetch
rejection, a non-2xx response, and an unparsable response body all produce
the empty result, in every variant. -/
theorem resolveJobs_error_paths_absorbed (titles : List String) (env : GenEnv)
    (envD : DirectSearch.FetchEnv) :
    ((∀ r, env.respond r = .error ()) →
      (GroundedSearch.findMatchingJobs titles env).1 = .arr [] ∧
      (SupabaseLib.findMatchingJobs titles env).1 = .arr []) ∧
    ((∀ s, env.parse s = none) →
      (GroundedSearch.findMatchingJobs titles env).1 = .arr [] ∧
      (SupabaseLib.findMatchingJobs titles env).1 = .arr []) ∧
    (envD.fetch = .error () →
      (DirectSearch.findMatchingJobs titles envD).1 = []) ∧
    (∀ resp, envD.fetch = .ok resp → resp.ok = false →
      (DirectSearch.findMatchingJobs titles envD).1 = []) ∧
    (∀ resp, envD.fetch = .ok resp → resp.body = none →
      (DirectSearch.findMatchingJobs titles envD).1 = []) := by
  refine ⟨?_, ?_, ?_, ?_, ?_⟩
  · intro hresp
    rcases titles with _ | ⟨t, ts⟩
    · exact ⟨rfl, rfl⟩
    · constructor <;>
        simp [GroundedSearch.findMatchingJobs, SupabaseLib.findMatchingJobs, hresp]
  · intro hparse
    rcases titles with _ | ⟨t, ts⟩
    · exact ⟨rfl, rfl⟩
    · constructor
      · rcases h : env.respond (.search (t :: ts)) with e | text
        · simp [GroundedSearch.findMatchingJobs, h]
        · rcases h2 : env.respond (.repair (stripFence (jsTrim text))) with e | fixText <;>
            simp [GroundedSearch.findMatchingJobs, h, h2, hparse]
      · rcases h : env.respond (.search (t :: ts)) with e | text <;>
          simp [SupabaseLib.findMatchingJobs, h, hparse]
  · intro hfetch
    rcases titles with _ | ⟨t, ts⟩ <;>
      simp [DirectSearch.findMatchingJobs, hfetch]
  · intro resp hfetch hok
    rcases titles with _ | ⟨t, ts⟩ <;>
      simp [DirectSearch.findMatchingJobs, hfetch, hok]
  · intro resp hfetch hbody
    rcases titles with _ | ⟨t, ts⟩
    · simp [DirectSearch.findMatchingJobs]
    · cases hok : resp.ok <;>
        simp [DirectSearch.findMatchingJobs, hfetch, hok, hbody]

/-- Witness for C4 on concrete all-failing environments. -/
theorem resolveJobs_error_paths_absorbed_witness :
    (GroundedSearch.findMatchingJobs ["Backend Engineer"] c4envGen).1 = .arr [] ∧
    (SupabaseLib.findMatchingJobs ["Backend Engineer"] c4envGen).1 = .arr [] ∧
    (DirectSearch.findMatchingJobs ["Backend Engineer"] c4envD).1 = [] := by
  have h := resolveJobs_error_paths_absorbed ["Backend Engineer"] c4envGen c4envD
  exact ⟨(h.1 (fun r => rfl)).1, (h.1 (fun r => rfl)).2, h.2.2.1 rfl⟩

/-- Claim C5: sanitization defaults of `finalize`.  With the header update and the
inserts succeeding, a non-numeric score is persisted as 0 on the header row,
a skill with missing or non-numeric confidence is persisted with confidence
0.8, and a job with missing or non-numeric match percentage is persisted with
match percentage 0. -/
theorem finalize_sanitization_defaults (resumeId : String)
    (analysis : AnalysisData) (env : PersistEnv) (db : DB)
    (hupd : env.resumeUpdateError = none)
    (hsk : env.skillsInsertError = none)
    (_hfb : env.feedbackInsertError = none)
    (hjb : env.jobsInsertError = none) :
    (analysis.score.isNumber = false →
      ∀ r ∈ (updateResumeWithAnalysis resumeId analysis env db).2.resumes,
        r.id = resumeId → r.score = 0) ∧
    (∀ s ∈ analysis.skills.getD [], s.confidence.isNumber = false →
      skillToInsert resumeId s ∈ (updateResumeWithAnalysis resumeId analysis env db).2.skills ∧
      (skillToInsert resumeId s).confidence = 8 / 10) ∧
    (∀ j ∈ analysis.matched_jobs.getD [], j.match_percentage.isNumber = false →
      jobToInsert resumeId j ∈ (updateResumeWithAnalysis resumeId analysis env db).2.matched_jobs ∧
      (jobToInsert resumeId j).match_percentage = 0) := by
  rw [updateResume_db resumeId analysis env db hupd]
  refine ⟨?_, ?_, ?_⟩
  · intro hscore r hr hid
    simp only [childInserts, headerUpdate, List.mem_map] at hr
    rcases hr with ⟨r0, _, rfl⟩
    by_cases hb : r0.id == resumeId
    · simp only [hb, if_pos]
      show numberOrDefault analysis.score 0 = 0
      cases hv : analysis.score <;> simp_all [JSValue.isNumber, numberOrDefault]
    · rw [if_neg (by simp [hb])] at hid ⊢
      exact absurd hid (by simpa using hb)
  · intro s hs hconf
    constructor
    · simp only [childInserts, hsk, insertResult_none, appliedRows]
      exact List.mem_append_right _ (List.mem_map_of_mem _ hs)
    · show numberOrDefault s.confidence (8 / 10) = 8 / 10
      cases hv : s.confidence <;> simp_all [JSValue.isNumber, numberOrDefault]
  · intro j hj hmp
    constructor
    · simp only [childInserts, hjb, insertResult_none, appliedRows]
      exact List.mem_append_right _ (List.mem_map_of_mem _ hj)
    · show numberOrDefault j.match_percentage 0 = 0
      cases hv : j.match_percentage <;> simp_all [JSValue.isNumber, numberOrDefault]

/-- Witness for C5 on a concrete analysis: score "abc" persists as 0, the
confidence-less skill persists with confidence 0.8, the percentage-less job
persists with match percentage 0. -/
theorem finalize_sanitization_defaults_witness :
    ((updateResumeWithAnalysis "r1" c5analysis c5env c5db).2.resumes.map
      ResumeRow.score) = [0] ∧
    (skillToInsert "r1" c5skill).confidence = 8 / 10 ∧
    skillToInsert "r1" c5skill ∈
      (updateResumeWithAnalysis "r1" c5analysis c5env c5db).2.skills ∧
    (jobToInsert "r1" c5job).match_percentage = 0 ∧
    jobToInsert "r1" c5job ∈
      (updateResumeWithAnalysis "r1" c5analysis c5env c5db).2.matched_jobs := by
  have h := finalize_sanitization_defaults "r1" c5analysis c5env c5db rfl rfl rfl rfl
  have h1 := h.1 rfl (updatedHeaderRow c5analysis c5row) (by decide) rfl
  have h2 := h.2.1 c5skill (by decide) rfl
  have h3 := h.2.2 c5job (by decide) rfl
  refine ⟨?_, h2.2, h2.1, h3.2, h3.1⟩
  have hres : (updateResumeWithAnalysis "r1" c5analysis c5env c5db).2.resumes =
      [updatedHeaderRow c5analysis c5row] := by decide
  rw [hres]
  simp [h1]

/-- Claim C2: when the header update succeeds but one of the issued child-row
inserts fails, `updateResumeWithAnalysis` returns no record and a reported
error, while every sub-write that succeeded keeps its rows in the database
(no rollback). -/
theorem finalize_subwrite_failure_reports_error (resumeId : String)
    (analysis : AnalysisData) (env : PersistEnv) (db : DB)
    (hupd : env.resumeUpdateError = none)
    (hfail : (analysis.skills.getD [] ≠ [] ∧ env.skillsInsertError ≠ none) ∨
             (analysis.feedback.getD [] ≠ [] ∧ env.feedbackInsertError ≠ none) ∨
             (analysis.matched_jobs.getD [] ≠ [] ∧ env.jobsInsertError ≠ none)) :
    (updateResumeWithAnalysis resumeId analysis env db).1.1 = none ∧
    (updateResumeWithAnalysis resumeId analysis env db).1.2 ≠ none ∧
    (env.skillsInsertError = none → ∀ s ∈ analysis.skills.getD [],
      skillToInsert resumeId s ∈
        (updateResumeWithAnalysis resumeId analysis env db).2.skills) ∧
    (env.feedbackInsertError = none → ∀ f ∈ analysis.feedback.getD [],
      feedbackToInsert resumeId f ∈
        (updateResumeWithAnalysis resumeId analysis env db).2.feedback) ∧
    (env.jobsInsertError = none → ∀ j ∈ analysis.matched_jobs.getD [],
      jobToInsert resumeId j ∈
        (updateResumeWithAnalysis resumeId analysis env db).2.matched_jobs) := by
  have hres := updateResume_result_of_insert_failure resumeId analysis env db hupd hfail
  refine ⟨hres.1, hres.2, ?_, ?_, ?_⟩
  all_goals rw [updateResume_db resumeId analysis env db hupd]
  · intro h s hs
    simp only [childInserts, h, insertResult_none, appliedRows]
    exact List.mem_append_right _ (List.mem_map_of_mem _ hs)
  · intro h f hf
    simp only [childInserts, h, insertResult_none, appliedRows]
    exact List.mem_append_right _ (List.mem_map_of_mem _ hf)
  · intro h j hj
    simp only [childInserts, h, insertResult_none, appliedRows]
    exact List.mem_append_right _ (List.mem_map_of_mem _ hj)

/-- Witness for C2: a failing jobs insert yields an error result while the
succeeded skills and feedback inserts keep their rows. -/
theorem finalize_subwrite_failure_reports_error_witness :
    (updateResumeWithAnalysis "r1" c2analysis c2env c2db).1.1 = none ∧
    (updateResumeWithAnalysis "r1" c2analysis c2env c2db).1.2 =
      some "jobs insert failed" ∧
    skillToInsert "r1" c2skill ∈
      (updateResumeWithAnalysis "r1" c2analysis c2env c2db).2.skills ∧
    feedbackToInsert "r1" "Add metrics" ∈
      (updateResumeWithAnalysis "r1" c2analysis c2env c2db).2.feedback := by
  have h := finalize_subwrite_failure_reports_error "r1" c2analysis c2env c2db rfl
    (Or.inr (Or.inr ⟨by decide, by decide⟩))
  refine ⟨h.1, by decide, ?_, ?_⟩
  · exact h.2.2.1 rfl c2skill (by simp [c2analysis])
  · exact h.2.2.2.1 rfl "Add metrics" (by simp [c2analysis])

/-- Claim C1, amended: the `status: 'completed'` header write is issued before the
child inserts; when an issued insert then fails, the call reports an error
(no success record) but the already-applied header update is not rolled back,
so the stored record keeps status "completed". -/
theorem finalize_failure_keeps_completed_header (resumeId : String)
    (analysis : AnalysisData) (env : PersistEnv) (db : DB)
    (hupd : env.resumeUpdateError = none)
    (hfail : (analysis.skills.getD [] ≠ [] ∧ env.skillsInsertError ≠ none) ∨
             (analysis.feedback.getD [] ≠ [] ∧ env.feedbackInsertError ≠ none) ∨
             (analysis.matched_jobs.getD [] ≠ [] ∧ env.jobsInsertError ≠ none)) :
    (updateResumeWithAnalysis resumeId analysis env db).1.2 ≠ none ∧
    ∀ r ∈ (updateResumeWithAnalysis resumeId analysis env db).2.resumes,
      r.id = resumeId → r.status = .completed := by
  refine ⟨(updateResume_result_of_insert_failure resumeId analysis env db hupd hfail).2, ?_⟩
  rw [updateResume_db resumeId analysis env db hupd]
  intro r hr hid
  simp only [childInserts, headerUpdate, List.mem_map] at hr
  rcases hr with ⟨r0, _, rfl⟩
  by_cases hb : r0.id == resumeId
  · simp only [hb, if_pos]
    rfl
  · rw [if_neg (by simp [hb])] at hid ⊢
    exact absurd hid (by simpa using hb)

/-- Counterexample to C1 as stated: with only the jobs insert failing, the
call reports the failure, yet the stored record is already marked
"completed" while its matched_jobs table holds no row — the record's status
was written before the child inserts were attempted and the failing
sub-write did not abort that update. -/
theorem finalize_completed_before_inserts_counterexample :
    (updateResumeWithAnalysis "r1" c1analysis c1env c1db).1.2 =
      some "jobs insert failed" ∧
    ((updateResumeWithAnalysis "r1" c1analysis c1env c1db).2.resumes.map
      ResumeRow.status) = [.completed] ∧
    (updateResumeWithAnalysis "r1" c1analysis c1env c1db).2.matched_jobs = [] := by
  decide

/-- Witness for the amended C1 on the concrete failing run. -/
theorem finalize_failure_keeps_completed_header_witness :
    (updateResumeWithAnalysis "r1" c1analysis c1env c1db).1.2 ≠ none ∧
    (updatedHeaderRow c1analysis c1row).status = .completed := by
  have h := finalize_failure_keeps_completed_header "r1" c1analysis c1env c1db rfl
    (Or.inr (Or.inr ⟨by decide, by decide⟩))
  exact ⟨h.1, h.2 (updatedHeaderRow c1analysis c1row) (by decide) rfl⟩

lemma isPrefixOf_append_self (p t : List Char) : p.isPrefixOf (p ++ t) = true := by
  simp [ List.isPrefixOf_iff_prefix]

/-- Function `findSub` returns the first index at which the pattern occurs. -/
lemma findSub_eq_of_first (pat : List Char) :
    ∀ (s : List Char) (k : Nat),
      pat.isPrefixOf (s.drop k) = true →
      (∀ j, j < k → pat.isPrefixOf (s.drop j) = false) →
      findSub pat s = some k := by
  intro s
  induction s with
  | nil =>
    intro k hk hmin
    cases k with
    | zero =>
      simp only [List.drop_nil] at hk
      simp [findSub, hk]
    | succ j =>
      exfalso
      have h0 := hmin 0 (Nat.succ_pos j)
      simp only [List.drop_nil] at hk h0
      rw [hk] at h0
      exact Bool.true_eq_false.mp h0
  | cons c rest ih =>
    intro k hk hmin
    cases k with
    | zero =>
      simp only [List.drop_zero] at hk
      simp [findSub, hk]
    | succ j =>
      have h0 := hmin 0 (Nat.succ_pos j)
      simp only [List.drop_zero] at h0
      have hrec := ih j (by simpa using hk)
        (fun i hi => by simpa using hmin (i + 1) (Nat.succ_lt_succ hi))
      simp [findSub, h0, hrec]

/-- On a well-formed fenced block whose interior contains no closing fence
(also not one straddling into the real closing fence), the regex capture
group is exactly the interior. -/
lemma regexFenceGroup_fenced (i : List Char)
    (hmin : ∀ j, j < i.length →
      fenceClose.isPrefixOf ((i ++ fenceClose).drop j) = false) :
    regexFenceGroup (fenceOpen ++ i ++ fenceClose) = some i := by
  have hopen : findSub fenceOpen (fenceOpen ++ i ++ fenceClose) = some 0 := by
    apply findSub_eq_of_first
    · rw [List.drop_zero, List.append_assoc]
      exact isPrefixOf_append_self fenceOpen (i ++ fenceClose)
    · intro j hj
      omega
  have hdrop : (fenceOpen ++ i ++ fenceClose).drop (0 + fenceOpen.length) =
      i ++ fenceClose := by
    rw [List.append_assoc, Nat.zero_add]
    exact List.drop_left fenceOpen (i ++ fenceClose)
  have hclose : findSub fenceClose (i ++ fenceClose) = some i.length := by
    apply findSub_eq_of_first
    · rw [List.drop_left]
      simp [ List.isPrefixOf_iff_prefix]
    · exact hmin
  simp only [regexFenceGroup, hopen, hdrop, hclose, List.take_left]

lemma jsTrim_eq_self (s : List Char) (h1 : s.dropWhile isWS = s)
    (h2 : s.reverse.dropWhile isWS = s.reverse) : jsTrim s = s := by
  simp only [jsTrim, h1, h2, List.reverse_reverse]

lemma dropWhile_cons_of_neg (p : Char → Bool) (c : Char) (l : List Char)
    (h : p c = false) : List.dropWhile p (c :: l) = c :: l := by
  simp [List.dropWhile_cons, h]

/-- A fenced block begins and ends with a backtick, so `trim` leaves it
unchanged. -/
lemma jsTrim_fenced (i : List Char) :
    jsTrim (fenceOpen ++ i ++ fenceClose) = fenceOpen ++ i ++ fenceClose := by
  apply jsTrim_eq_self
  · have hshape : fenceOpen ++ i ++ fenceClose =
        '\x60' :: (('\x60' :: '\x60' :: 'j' :: 's' :: 'o' :: 'n' :: '\n' :: []) ++
          i ++ fenceClose) := rfl
    rw [hshape]
    exact dropWhile_cons_of_neg _ _ _ rfl
  · have hshape : (fenceOpen ++ i ++ fenceClose).reverse =
        '\x60' :: ('\x60' :: '\x60' :: '\n' :: (fenceOpen ++ i).reverse) := by
      rw [List.reverse_append]
      rfl
    rw [hshape]
    exact dropWhile_cons_of_neg _ _ _ rfl

/-- Trimming an interior wrapped in single newlines recovers the interior,
provided the interior is non-empty and has no leading or trailing
whitespace. -/
lemma jsTrim_wrap_newline (i : List Char) (hne : i ≠ [])
    (h1 : i.dropWhile isWS = i) (h2 : i.reverse.dropWhile isWS = i.reverse) :
    jsTrim ('\n' :: (i ++ ('\n' :: []))) = i := by
  rcases i with _ | ⟨c, t⟩
  · exact absurd rfl hne
  · have hc : isWS c = false := by
      cases hcw : isWS c
      · rfl
      · exfalso
        rw [List.dropWhile_cons, if_pos hcw] at h1
        have hlen := congrArg List.length h1
        have hle := (List.dropWhile_sublist (l := t) isWS).length_le
        simp only [List.length_cons] at hlen
        omega
    have hA : List.dropWhile isWS ('\n' :: ((c :: t) ++ ('\n' :: []))) =
        (c :: t) ++ ('\n' :: []) := by
      rw [List.dropWhile_cons, if_pos (show isWS '\n' = true from rfl),
        List.cons_append, List.dropWhile_cons, if_neg (by simp [hc])]
    have hB : ((c :: t) ++ ('\n' :: [])).reverse = '\n' :: (c :: t).reverse := by
      rw [List.reverse_append]
      rfl
    have hC : List.dropWhile isWS ('\n' :: (c :: t).reverse) = (c :: t).reverse := by
      rw [List.dropWhile_cons, if_pos (show isWS '\n' = true from rfl), h2]
    simp only [jsTrim, hA, hB, hC, List.reverse_reverse]

/-- Taking `substring(7, length - 3)` of a well-formed fenced block leaves the
interior wrapped in the two fence newlines. -/
lemma jsSubstring_fenced (i : List Char) :
    jsSubstring (fenceOpen ++ i ++ fenceClose) 7
      ((fenceOpen ++ i ++ fenceClose).length - 3) = '\n' :: (i ++ ('\n' :: [])) := by
  have hlen : (fenceOpen ++ i ++ fenceClose).length = i.length + 12 := by
    simp [fenceOpen, fenceClose]
  unfold jsSubstring
  rw [hlen]
  have e1 : min 7 (i.length + 12) = 7 := by omega
  have e2 : min (i.length + 12 - 3) (i.length + 12) = i.length + 9 := by omega
  have e3 : min 7 (i.length + 9) = 7 := by omega
  have e4 : max 7 (i.length + 9) - 7 = i.length + 2 := by omega
  rw [e1, e2, e3, e4]
  have hdrop : (fenceOpen ++ i ++ fenceClose).drop 7 = '\n' :: (i ++ fenceClose) := by
    rw [List.append_assoc]
    rfl
  rw [hdrop, List.take_succ_cons, List.take_append_eq_append_take,
    List.take_of_length_le (by omega)]
  have : i.length + 1 - i.length = 1 := by omega
  rw [this]
  rfl

/-- Claim C6: when the first-pass response is exactly a valid JSON array wrapped in
a well-formed fenced code block (non-empty interior with no embedded closing
fence and no leading or trailing whitespace), both grounded-search variants
return exactly the value obtained by parsing the interior directly: the
fence-stripping step changes nothing about the parsed value. -/
theorem resolveJobs_fence_strip_transparent (titles : List String)
    (env : GenEnv) (i : List Char) (jobs : List Job)
    (ht : titles ≠ [])
    (hne : i ≠ [])
    (hresp : env.respond (.search titles) = .ok (fenceOpen ++ i ++ fenceClose))
    (hmin : ∀ j, j < i.length →
      fenceClose.isPrefixOf ((i ++ fenceClose).drop j) = false)
    (h1 : i.dropWhile isWS = i)
    (h2 : i.reverse.dropWhile isWS = i.reverse)
    (hparse : env.parse i = some (.arr jobs)) :
    (GroundedSearch.findMatchingJobs titles env).1 = .arr jobs ∧
    (SupabaseLib.findMatchingJobs titles env).1 = .arr jobs := by
  have hempty : titles.isEmpty = false := by
    cases titles <;> simp_all
  have hstrip : stripFence (jsTrim (fenceOpen ++ (i ++ fenceClose))) = i := by
    rw [← List.append_assoc, jsTrim_fenced, stripFence, regexFenceGroup_fenced i hmin]
    simp [List.isEmpty_iff, hne]
  constructor
  · simp [GroundedSearch.findMatchingJobs, hempty, hresp, hstrip, hparse]
  · have hhead : fenceJsonHead.isPrefixOf
        (jsTrim (fenceOpen ++ (i ++ fenceClose))) = true := by
      rw [← List.append_assoc, jsTrim_fenced]
      have hshape : fenceOpen ++ i ++ fenceClose =
          fenceJsonHead ++ ('\n' :: (i ++ fenceClose)) := by
        rw [List.append_assoc]
        rfl
      rw [hshape]
      exact isPrefixOf_append_self fenceJsonHead ('\n' :: (i ++ fenceClose))
    have hjson : jsTrim (jsSubstring (jsTrim (fenceOpen ++ (i ++ fenceClose))) 7
        ((jsTrim (fenceOpen ++ (i ++ fenceClose))).length - 3)) = i := by
      rw [← List.append_assoc, jsTrim_fenced, jsSubstring_fenced]
      exact jsTrim_wrap_newline i hne h1 h2
    simp [SupabaseLib.findMatchingJobs, hempty, hresp, hhead, hjson, hparse]

/-- Witness for C6: both variants return the value parsed from the fenced
interior directly. -/
theorem resolveJobs_fence_strip_transparent_witness :
    (GroundedSearch.findMatchingJobs ["Backend Engineer"] c6env).1 = .arr [] ∧
    (SupabaseLib.findMatchingJobs ["Backend Engineer"] c6env).1 = .arr [] := by
  have h := resolveJobs_fence_strip_transparent ["Backend Engineer"] c6env
    ('[' :: ']' :: []) [] (by simp) (by simp) rfl (by decide) (by decide)
    (by decide) (by decide)
  exact h

end Careerspark
